import Mathlib

/-!
Verification of the SVG full-page rendering fallback of the dom-to-image
repository: the dimension heuristic (`extractSvgDimensions`), the Puppeteer
renderer (`renderSvgFullPage` in src/renderer.js), the Express handler
(POST /render in examples/fallback-server.js) and the Safari fallback
transport (`svgDataUriToString`).  JavaScript strings are modelled as lists
of characters, JavaScript numbers as rationals, and the browser engine as an
explicit environment supplying the outcome of each external step.
-/

namespace DomToImage

/-- JavaScript strings are modelled as lists of characters. -/
abbrev JsStr := List Char

/-! ## DimensionHeuristic: extractSvgDimensions (src/renderer.js lines 34-42) -/

/-- Numeric value of a run of decimal digit characters, most significant
first, as read by the capture group of the regex. -/
def digitsToNat (ds : JsStr) : Nat :=
  ds.foldl (fun a c => 10 * a + (c.toNat - 48)) 0

/-- Value of the decimal literal `intPart.fracPart`, i.e. what JavaScript's
parseFloat returns on a capture matching \d+(\.\d+)? (modelled exactly as a
rational; float64 rounding is below the granularity of the claims). -/
def decimalValue (intPart fracPart : JsStr) : ℚ :=
  (digitsToNat intPart : ℚ) + (digitsToNat fracPart : ℚ) / (10 : ℚ) ^ fracPart.length

/-- Consume the literal `lit` from the front of `cs`; `none` if `cs` does not
start with it. -/
def dropLit : JsStr → JsStr → Option JsStr
  | [], rest => some rest
  | _ :: _, [] => none
  | a :: as, c :: cs => if c = a then dropLit as cs else none

/-- Match the regular expression `attr"?(\d+(?:\.\d+)?)"?` anchored at the
head of `cs` (with `attr` the literal part such as `width=`), returning the
parseFloat value of the capture group.  Mirrors the source regexes
/width="?(\d+(?:\.\d+)?)"?/ and /height="?(\d+(?:\.\d+)?)"?/ of
src/renderer.js: an optional double quote after the equals sign, then one or
more digits, then an optional fraction. -/
def attrNumAt (attr : JsStr) (cs : JsStr) : Option ℚ :=
  match dropLit attr cs with
  | none => none
  | some rest =>
    let rest1 := match rest with
      | '"' :: t => t
      | t => t
    let ip := rest1.takeWhile Char.isDigit
    let af := rest1.dropWhile Char.isDigit
    if ip = [] then none
    else
      match af with
      | '.' :: t =>
        let fp := t.takeWhile Char.isDigit
        if fp = [] then some (decimalValue ip [])
        else some (decimalValue ip fp)
      | _ => some (decimalValue ip [])

/-- Leftmost-match scan of a JavaScript regex: try the anchored matcher at
every position of the string from left to right and return the first hit. -/
def scanFirst (f : JsStr → Option ℚ) : JsStr → Option ℚ
  | [] => f []
  | c :: rest =>
    match f (c :: rest) with
    | some v => some v
    | none => scanFirst f rest

/-- The literal part of the width regex of src/renderer.js. -/
def widthAttrChars : JsStr := "width=".toList

/-- The literal part of the height regex of src/renderer.js. -/
def heightAttrChars : JsStr := "height=".toList

/-- A pair of SVG dimensions as returned by the heuristic. -/
structure SvgDimensions where
  width : ℚ
  height : ℚ
deriving DecidableEq, Repr

/-- extractSvgDimensions of src/renderer.js (identical copy in
src/utils.js): first match of /width="?(\d+(?:\.\d+)?)"?/ parsed with
parseFloat, defaulting to 300, and likewise for height defaulting to 150. -/
def extractSvgDimensions (svgString : JsStr) : SvgDimensions :=
  { width := (scanFirst (attrNumAt widthAttrChars) svgString).getD 300,
    height := (scanFirst (attrNumAt heightAttrChars) svgString).getD 150 }

/-- Spec-side formulation of the same search, following the words of the
spec (section 4.1): locate the first position of the text carrying a numeric
`width="…"` occurrence (here: enumerate candidate positions by index and take
the first that matches). -/
def firstAttrNumIdx (attr : JsStr) (cs : JsStr) : Option ℚ :=
  (List.range (cs.length + 1)).findSome? fun i => attrNumAt attr (cs.drop i)

/-- DimensionHeuristic as the spec describes it: best-guess width and height
from the first numeric attribute occurrences, each component defaulting
(300 for width, 150 for height) when absent or unparsable. -/
def dimensionHeuristicSpec (svgText : JsStr) : SvgDimensions :=
  { width := (firstAttrNumIdx widthAttrChars svgText).getD 300,
    height := (firstAttrNumIdx heightAttrChars svgText).getD 150 }

/-! ## OutputEncoder: screenshot options (src/renderer.js lines 192-203) -/

/-- JavaScript `a || b` on an optionally-present number: `0` is falsy, so a
present zero also selects the default. -/
def jsOrNum (v : Option ℚ) (d : ℚ) : ℚ :=
  match v with
  | some x => if x = 0 then d else x
  | none => d

/-- JavaScript `a || b` on an optionally-present string: the empty string is
falsy, so a present empty string also selects the default. -/
def jsOrStr (v : Option JsStr) (d : JsStr) : JsStr :=
  match v with
  | some s => if s = [] then d else s
  | none => d

/-- The `png` format name. -/
def pngChars : JsStr := "png".toList

/-- The `jpeg` format name. -/
def jpegChars : JsStr := "jpeg".toList

/-- The `webp` format name. -/
def webpChars : JsStr := "webp".toList

/-- The options object handed to page.screenshot by renderSvgFullPage. -/
structure ScreenshotOpts where
  type : JsStr
  fullPage : Bool
  omitBackground : Bool
  quality : Option ℤ
deriving DecidableEq, Repr

/-- Construction of the screenshot options in src/renderer.js lines 192-201:
type, fullPage: true, omitBackground: true, and for jpeg only a quality of
Math.round((options.quality || 1) * 100).  JavaScript Math.round on
non-negative arguments agrees with Mathlib's round (floor of x + 1/2). -/
def mkScreenshotOptions (outputType : JsStr) (quality : Option ℚ) : ScreenshotOpts :=
  let base : ScreenshotOpts :=
    { type := outputType, fullPage := true, omitBackground := true, quality := none }
  if outputType = jpegChars then
    { base with quality := some (round (jsOrNum quality 1 * 100)) }
  else base

/-! ## PageRenderer: renderSvgFullPage (src/renderer.js lines 98-228)

The browser engine (Puppeteer) is an external collaborator; it is modelled
as an environment supplying the outcome of every engine-driving step: the
launch, the content load, the DOM produced by parsing the markup, the
bounding boxes of elements, and the screenshot bytes. -/

/-- A DOM element: a tag name and child elements (attributes and text are
irrelevant to the modelled behaviour). -/
inductive Elem where
  | node (tag : JsStr) (children : List Elem)

/-- document.querySelector over a forest: first element in document order
(an element before its children, children before later siblings) whose tag
is `tag`. -/
def qsList (tag : JsStr) : List Elem → Option Elem
  | [] => none
  | Elem.node t cs :: es =>
    if t = tag then some (Elem.node t cs)
    else
      match qsList tag cs with
      | some r => some r
      | none => qsList tag es

/-- The `svg` tag name. -/
def svgTag : JsStr := "svg".toList

/-- Error kinds raised on the renderer's exit paths (section 7 taxonomy):
puppeteer unavailable or launch failure, content-load timeout, missing svg
element, and screenshot failure. -/
inductive RenderErr where
  | configuration
  | timeout
  | dimension
  | capture
deriving DecidableEq, Repr

/-- Observable side effects and engine-driving steps of one renderSvgFullPage
call, in the order the source performs them. -/
inductive Event where
  | launch
  | newPage
  | mkdirTemp
  | log
  | writeTempHtml
  | setContent
  | measure
  | setViewport
  | screenshot
  | writeOutput
  | writeTempImage
  | close
deriving DecidableEq, Repr

/-- The options object accepted by renderSvgFullPage. -/
structure RenderOptions where
  outputType : Option JsStr := none
  outputPath : Option JsStr := none
  quality : Option ℚ := none
  deviceScaleFactor : Option ℚ := none
  timeout : Option ℚ := none

/-- The result object returned by renderSvgFullPage on success (the extra
debugPath field of the source is the temp-directory debug copy; it is
reflected in the event trace instead). -/
structure RenderResult where
  buffer : List UInt8
  width : ℤ
  height : ℤ
  format : JsStr
  path : Option JsStr
deriving DecidableEq, Repr

/-- Environment describing the behaviour of the external collaborators of
one renderSvgFullPage call: whether Puppeteer resolves and launches, whether
the temp directory pre-exists, whether page.setContent settles before the
timeout, the element forest the browser parses the markup into (the body
children of the shell document), the rendered bounding box of each element,
and the screenshot produced for given options (with `shotOk` false when
page.screenshot throws). -/
structure RenderEnv where
  launchOk : Bool
  tempDirExists : Bool
  loadOk : Bool
  dom : List Elem
  bbox : Elem → ℚ × ℚ
  shotOk : Bool
  shot : ScreenshotOpts → List UInt8

/-- Body of the try block of renderSvgFullPage (src/renderer.js lines
106-224): newPage, the unused dimension-heuristic call, debug temp-dir
setup and HTML dump, setContent with timeout, the bounding-box measurement
clamped to at least 1 per dimension, Math.ceil to the final viewport size,
screenshot options per format, the opt-in outputPath write and the
unconditional debug image write.  Returns the outcome and the event trace
of the body. -/
def renderBody (env : RenderEnv) (svgString : JsStr) (opts : RenderOptions) :
    Except RenderErr RenderResult × List Event :=
  let _guess := extractSvgDimensions svgString
  let ev0 : List Event :=
    [Event.newPage] ++ (if env.tempDirExists then [] else [Event.mkdirTemp]) ++
      [Event.log, Event.writeTempHtml, Event.log, Event.setContent]
  if env.loadOk then
    match qsList svgTag env.dom with
    | none => (Except.error RenderErr.dimension, ev0 ++ [Event.measure])
    | some el =>
      let w := max (env.bbox el).1 1
      let h := max (env.bbox el).2 1
      let finalWidth := ⌈w⌉
      let finalHeight := ⌈h⌉
      let outputType := jsOrStr opts.outputType pngChars
      let sOpts := mkScreenshotOptions outputType opts.quality
      let ev1 := ev0 ++ [Event.measure, Event.setViewport, Event.screenshot]
      if env.shotOk then
        let buffer := env.shot sOpts
        let ev2 := ev1 ++
          (match opts.outputPath with
            | some _ => [Event.writeOutput]
            | none => []) ++ [Event.writeTempImage, Event.log]
        (Except.ok
          { buffer := buffer, width := finalWidth, height := finalHeight,
            format := outputType, path := opts.outputPath }, ev2)
      else (Except.error RenderErr.capture, ev1)
  else (Except.error RenderErr.timeout, ev0)

/-- renderSvgFullPage of src/renderer.js: dynamic Puppeteer load and launch
(throwing before the try block when unavailable, so no close happens), then
the try body with an unconditional browser.close() in the finally clause on
every exit path. -/
def renderSvgFullPage (env : RenderEnv) (svgString : JsStr) (opts : RenderOptions) :
    Except RenderErr RenderResult × List Event :=
  if env.launchOk then
    let r := renderBody env svgString opts
    (r.1, Event.launch :: r.2 ++ [Event.close])
  else (Except.error RenderErr.configuration, [])

/-- The MeasuredExtent of a render (section 3 of the spec): the rendered
bounding box of the first svg element of the loaded document, clamped to at
least 1 in each dimension, rounded up to whole pixels. -/
def measuredExtent (env : RenderEnv) : Option (ℤ × ℤ) :=
  (qsList svgTag env.dom).map fun el =>
    (⌈max (env.bbox el).1 1⌉, ⌈max (env.bbox el).2 1⌉)

/-! ## FallbackService: POST /render (examples/fallback-server.js lines 67-129) -/

/-- ASCII fragment of JavaScript String.prototype.toLowerCase (the values
validated by the handler are ASCII format names; Lean's Char.toLower lowers
exactly the ASCII uppercase letters). -/
def jsToLower (s : JsStr) : JsStr := s.map Char.toLower

/-- The valid outputType values of the handler. -/
def validOutputTypes : List JsStr := [pngChars, jpegChars, webpChars]

/-- An HTTP render request as the handler reads it: an optional multipart
file part (its buffer decoded as UTF-8), and the JSON/form body fields.  A
numeric field is `some v` when it was supplied and coerced by Number to the
finite value `v`; `none` covers both an absent field and a non-finite
coercion (NaN or infinite), which the handler treats identically. -/
structure HttpRequest where
  filePart : Option JsStr := none
  bodySvg : Option JsStr := none
  bodyOutputType : Option JsStr := none
  bodyQuality : Option ℚ := none
  bodyScale : Option ℚ := none
  bodyTimeout : Option ℚ := none

/-- A JSON error body as the handler sends it: the 400 branches send only
an `error` field, the 500 branch also a `type` field. -/
structure ErrorBody where
  error : JsStr
  type : Option JsStr
deriving DecidableEq, Repr

/-- The arguments the handler passes to renderSvgFullPage. -/
structure RenderArgs where
  svg : JsStr
  outputType : JsStr
  quality : ℚ
  deviceScaleFactor : ℚ
  timeout : ℚ
deriving DecidableEq, Repr

/-- Message of the 400 response for a missing svg field. -/
def svgRequiredMsg : JsStr := "SVG string required (svg field)".toList

/-- Message of the 400 response for an invalid outputType. -/
def outputTypeMsg : JsStr := "outputType must be one of png, jpeg, webp".toList

/-- The svg text the handler renders: the multipart file buffer when a file
part is present, otherwise the body's svg field. -/
def effectiveSvg (req : HttpRequest) : Option JsStr :=
  match req.filePart with
  | some f => some f
  | none => req.bodySvg

/-- Validation and coercion phase of the POST /render handler
(examples/fallback-server.js lines 69-99): pick the svg source, lowercase a
supplied outputType (a falsy empty string selects the default png), default
quality to 1 when absent or non-finite, scale to 2 unless finite and
positive, timeout to 30000 unless finite and positive; reject with a 400
error body first when svg is falsy, then when the outputType is not one of
png, jpeg, webp.  The 400 bodies carry no `type` field. -/
def validateRender (req : HttpRequest) : Except ErrorBody RenderArgs :=
  let outputType :=
    match req.bodyOutputType with
    | some s => if s = [] then pngChars else jsToLower s
    | none => pngChars
  let quality := (req.bodyQuality).getD 1
  let scale :=
    match req.bodyScale with
    | some v => if 0 < v then v else 2
    | none => 2
  let timeout :=
    match req.bodyTimeout with
    | some v => if 0 < v then v else 30000
    | none => 30000
  match effectiveSvg req with
  | none => Except.error { error := svgRequiredMsg, type := none }
  | some svg =>
    if svg = [] then Except.error { error := svgRequiredMsg, type := none }
    else if outputType ∈ validOutputTypes then
      Except.ok
        { svg := svg, outputType := outputType, quality := quality,
          deviceScaleFactor := scale, timeout := timeout }
    else Except.error { error := outputTypeMsg, type := none }

/-- An HTTP response of the handler: a JSON body with a status, or the
binary image with its content type and the X-Image-* header values. -/
inductive HttpResponse where
  | json (status : ℕ) (body : ErrorBody)
  | image (contentType : JsStr) (width height : ℤ) (format : JsStr) (buffer : List UInt8)
deriving DecidableEq, Repr

/-- The HTTP status of a response (200 for the binary image branch). -/
def HttpResponse.statusOf : HttpResponse → ℕ
  | .json s _ => s
  | .image _ _ _ _ _ => 200

/-- The message of a renderer error as surfaced by the catch clause.  The
configuration and dimension messages are the literal throw sites of
src/renderer.js; timeout and capture messages originate inside Puppeteer
and are modelled as fixed placeholder texts. -/
def errMessage : RenderErr → JsStr
  | RenderErr.configuration => "Puppeteer is not installed.".toList
  | RenderErr.timeout => "Navigation timeout exceeded".toList
  | RenderErr.dimension => "SVG element not found".toList
  | RenderErr.capture => "Screenshot failed".toList

/-- error.constructor.name as read by the catch clause: the renderer's own
throws are plain Error objects; Puppeteer's content-load timeout is a
TimeoutError. -/
def errCtorName : RenderErr → JsStr
  | RenderErr.timeout => "TimeoutError".toList
  | _ => "Error".toList

/-- The image/ content-type stem. -/
def imageStem : JsStr := "image/".toList

/-- The full POST /render handler (examples/fallback-server.js lines
67-129): validation rejections answer 400 with an `error`-only JSON body
and never reach the renderer; otherwise renderSvgFullPage runs with the
coerced arguments and its failure is answered 500 with the error message
and constructor name, its success with the binary buffer, the
image/format content type and the measured width and height. -/
def handleRender (env : RenderEnv) (req : HttpRequest) : HttpResponse :=
  match validateRender req with
  | Except.error b => HttpResponse.json 400 b
  | Except.ok args =>
    match (renderSvgFullPage env args.svg
        { outputType := some args.outputType, outputPath := none,
          quality := some args.quality,
          deviceScaleFactor := some args.deviceScaleFactor,
          timeout := some args.timeout }).1 with
    | Except.error e =>
      HttpResponse.json 500 { error := errMessage e, type := some (errCtorName e) }
    | Except.ok r =>
      HttpResponse.image (imageStem ++ r.format) r.width r.height r.format r.buffer

/-! ## FallbackTransport: svgDataUriToString (src/unnamed/part_001 lines 33-49) -/

/-- Does `cs` start with the literal `lit`? -/
def leadsWith (lit : JsStr) (cs : JsStr) : Bool :=
  (dropLit lit cs).isSome

/-- JavaScript String.prototype.split on a single-character separator. -/
def splitOnChar (sep : Char) : JsStr → List JsStr
  | [] => [[]]
  | c :: rest =>
    match splitOnChar sep rest with
    | [] => [[]]
    | s :: ss => if c = sep then [] :: s :: ss else (c :: s) :: ss

/-- The data-URI scheme checked by svgDataUriToString. -/
def svgSchemeChars : JsStr := "data:image/svg+xml".toList

/-- The string JavaScript coerces `undefined` to (split(',')[1] when the URI
has no comma, then passed through decodeURIComponent unchanged since it has
no percent sign). -/
def undefinedChars : JsStr := "undefined".toList

/-- svgDataUriToString of the Safari fallback module.  decodeURIComponent is
a host builtin and is abstracted as the parameter `decode`: `some s` models
a successful decode to `s`, `none` a thrown URIError, in which case the
catch clause keeps the split segment as-is.  A string not starting with the
data:image/svg+xml scheme is returned unchanged; otherwise the segment of
the URI between its first and second commas is taken and decoded. -/
def svgDataUriToString (decode : JsStr → Option JsStr) (svgDataUri : JsStr) : JsStr :=
  if leadsWith svgSchemeChars svgDataUri then
    let payload := (splitOnChar ',' svgDataUri).getD 1 undefinedChars
    match decode payload with
    | some s => s
    | none => payload
  else svgDataUri

/-- Builder for the data-URI envelope convention of the spec (section 6):
data:image/svg+xml[;encoding],payload. -/
def mkSvgDataUri (encoding : Option JsStr) (payload : JsStr) : JsStr :=
  svgSchemeChars ++
    (match encoding with
      | some e => ';' :: e
      | none => []) ++ ',' :: payload

/-! ## Concrete fixtures used to evaluate the model on explicit inputs -/

/-- The tag of a forest's first root element, if any. -/
def domRootTag : List Elem → Option JsStr
  | [] => none
  | Elem.node t _ :: _ => some t

/-- An environment in which every external step succeeds: the parsed markup
is a single svg root whose rendered box is 300 by 150 and the screenshot is
a one-byte buffer. -/
def envOk : RenderEnv :=
  { launchOk := true, tempDirExists := true, loadOk := true,
    dom := [Elem.node svgTag []],
    bbox := fun _ => (300, 150), shotOk := true, shot := fun _ => [1] }

/-- Like envOk but the markup's document root is a div with an svg child,
as the browser parses markup such as div-wrapping-svg. -/
def envC2div : RenderEnv :=
  { envOk with dom := [Elem.node "div".toList [Elem.node svgTag []]] }

/-- Like envOk but there is no svg element anywhere in the document. -/
def envNoSvg : RenderEnv :=
  { envOk with dom := [Elem.node "div".toList []] }

/-- A small sample markup text. -/
def sampleSvg : JsStr := "<svg width=\"300\" height=\"150\"></svg>".toList

/-- A request carrying the sample svg with the mixed-case outputType PNG. -/
def reqPNG : HttpRequest :=
  { bodySvg := some sampleSvg, bodyOutputType := some "PNG".toList }

/-- A request carrying the sample svg with the unsupported outputType gif. -/
def reqGif : HttpRequest :=
  { bodySvg := some sampleSvg, bodyOutputType := some "gif".toList }

/-- The identity as a decode function: decodeURIComponent returns its input
unchanged on any string containing no percent sign, which holds for every
payload it is applied to below. -/
def identityDecode : JsStr → Option JsStr := fun s => some s

/-! ## Helper lemmas -/

/-- The event trace of the try body on the success path. -/
def successEvents (env : RenderEnv) (opts : RenderOptions) : List Event :=
  ([Event.newPage] ++ (if env.tempDirExists then [] else [Event.mkdirTemp]) ++
      [Event.log, Event.writeTempHtml, Event.log, Event.setContent]) ++
    [Event.measure, Event.setViewport, Event.screenshot] ++
    (match opts.outputPath with
      | some _ => [Event.writeOutput]
      | none => []) ++ [Event.writeTempImage, Event.log]

/-- The result of a fully successful render. -/
def successResult (env : RenderEnv) (opts : RenderOptions) (el : Elem) : RenderResult :=
  { buffer := env.shot (mkScreenshotOptions (jsOrStr opts.outputType pngChars) opts.quality),
    width := ⌈max (env.bbox el).1 1⌉, height := ⌈max (env.bbox el).2 1⌉,
    format := jsOrStr opts.outputType pngChars, path := opts.outputPath }

/-- Forward computation of renderSvgFullPage on the success path. -/
theorem renderSvgFullPage_success (env : RenderEnv) (svg : JsStr)
    (opts : RenderOptions) (el : Elem)
    (hb : env.launchOk = true) (hl : env.loadOk = true)
    (hel : qsList svgTag env.dom = some el) (hs : env.shotOk = true) :
    renderSvgFullPage env svg opts =
      (Except.ok (successResult env opts el),
        Event.launch :: successEvents env opts ++ [Event.close]) := by
  simp only [renderSvgFullPage, renderBody, hb, hl, hel, hs, if_true,
    successEvents, successResult]

/-- Forward computation of renderSvgFullPage when Puppeteer cannot launch. -/
theorem renderSvgFullPage_config (env : RenderEnv) (svg : JsStr)
    (opts : RenderOptions) (hb : env.launchOk = false) :
    renderSvgFullPage env svg opts = (Except.error RenderErr.configuration, []) := by
  simp only [renderSvgFullPage, hb, Bool.false_eq_true, if_false]

/-- Forward computation of renderSvgFullPage on a content-load timeout. -/
theorem renderSvgFullPage_timeout (env : RenderEnv) (svg : JsStr)
    (opts : RenderOptions) (hb : env.launchOk = true) (hl : env.loadOk = false) :
    (renderSvgFullPage env svg opts).1 = Except.error RenderErr.timeout := by
  simp only [renderSvgFullPage, renderBody, hb, hl, if_true, Bool.false_eq_true, if_false]

/-- Forward computation of renderSvgFullPage when the loaded document has no
svg element. -/
theorem renderSvgFullPage_dimension (env : RenderEnv) (svg : JsStr)
    (opts : RenderOptions) (hb : env.launchOk = true) (hl : env.loadOk = true)
    (hel : qsList svgTag env.dom = none) :
    (renderSvgFullPage env svg opts).1 = Except.error RenderErr.dimension := by
  simp only [renderSvgFullPage, renderBody, hb, hl, hel, if_true]

/-- Forward computation of renderSvgFullPage on a screenshot failure. -/
theorem renderSvgFullPage_capture (env : RenderEnv) (svg : JsStr)
    (opts : RenderOptions) (el : Elem)
    (hb : env.launchOk = true) (hl : env.loadOk = true)
    (hel : qsList svgTag env.dom = some el) (hs : env.shotOk = false) :
    (renderSvgFullPage env svg opts).1 = Except.error RenderErr.capture := by
  simp only [renderSvgFullPage, renderBody, hb, hl, hel, hs, if_true,
    Bool.false_eq_true, if_false]

/-- Inversion of a successful renderSvgFullPage call: every external step
succeeded, an svg element was found, and the result and trace are exactly
the ones of the success path. -/
theorem renderSvgFullPage_ok_inversion (env : RenderEnv) (svg : JsStr)
    (opts : RenderOptions) (r : RenderResult) (ev : List Event)
    (h : renderSvgFullPage env svg opts = (Except.ok r, ev)) :
    env.launchOk = true ∧ env.loadOk = true ∧ env.shotOk = true ∧
      ∃ el, qsList svgTag env.dom = some el ∧ r = successResult env opts el ∧
        ev = Event.launch :: successEvents env opts ++ [Event.close] := by
  by_cases hb : env.launchOk
  · by_cases hl : env.loadOk
    · cases hel : qsList svgTag env.dom with
      | none =>
        have := renderSvgFullPage_dimension env svg opts hb hl hel
        rw [h] at this; simp at this
      | some el =>
        by_cases hs : env.shotOk
        · have heq := renderSvgFullPage_success env svg opts el hb hl hel hs
          rw [h] at heq
          have h1 : Except.ok r = Except.ok (successResult env opts el) :=
            congrArg Prod.fst heq
          have h2 : ev = Event.launch :: successEvents env opts ++ [Event.close] :=
            congrArg Prod.snd heq
          exact ⟨hb, hl, hs, el, rfl, Except.ok.inj h1, h2⟩
        · have := renderSvgFullPage_capture env svg opts el hb hl hel
            (Bool.not_eq_true _ ▸ hs)
          rw [h] at this; simp at this
    · have := renderSvgFullPage_timeout env svg opts hb (Bool.not_eq_true _ ▸ hl)
      rw [h] at this; simp at this
  · have := renderSvgFullPage_config env svg opts (Bool.not_eq_true _ ▸ hb)
    rw [h] at this; simp at this

/-- Consuming a literal from a string that starts with it leaves the rest. -/
theorem dropLit_append (lit rest : JsStr) : dropLit lit (lit ++ rest) = some rest := by
  induction lit with
  | nil => rfl
  | cons a as ih => simp [dropLit, ih]

/-- A string that literally starts with `lit` passes the leadsWith test. -/
theorem leadsWith_append (lit rest : JsStr) : leadsWith lit (lit ++ rest) = true := by
  simp [leadsWith, dropLit_append]

/-- JavaScript split never returns an empty array. -/
theorem splitOnChar_ne_nil (sep : Char) (cs : JsStr) : splitOnChar sep cs ≠ [] := by
  cases cs with
  | nil => simp [splitOnChar]
  | cons c rest =>
    simp only [splitOnChar]
    split
    · simp
    · split <;> simp

/-- Splitting a separator-free string yields the single segment. -/
theorem splitOnChar_no_sep (sep : Char) (cs : JsStr) (h : sep ∉ cs) :
    splitOnChar sep cs = [cs] := by
  induction cs with
  | nil => rfl
  | cons c rest ih =>
    have hc : ¬(c = sep) := fun hcs => h (hcs ▸ List.mem_cons_self c rest)
    have hr : sep ∉ rest := fun hm => h (List.mem_cons_of_mem _ hm)
    simp [splitOnChar, ih hr, hc]

/-- Splitting at the first separator: a separator-free head segment followed
by the split of the remainder. -/
theorem splitOnChar_append_sep (sep : Char) (a b : JsStr) (ha : sep ∉ a) :
    splitOnChar sep (a ++ sep :: b) = a :: splitOnChar sep b := by
  induction a with
  | nil =>
    simp only [List.nil_append, splitOnChar]
    cases h : splitOnChar sep b with
    | nil => exact absurd h (splitOnChar_ne_nil sep b)
    | cons s ss => simp
  | cons c as ih =>
    have hc : ¬(c = sep) := fun hcs => ha (hcs ▸ List.mem_cons_self c as)
    have ha' : sep ∉ as := fun hm => ha (List.mem_cons_of_mem _ hm)
    rw [List.cons_append, splitOnChar, ih ha']
    simp [hc]

/-- The left-to-right scan of an anchored matcher coincides with searching
the positions of the string by increasing index: the code's recursion over
suffixes equals the spec's notion of the first matching occurrence. -/
theorem scanFirst_eq_findSome (f : JsStr → Option ℚ) (cs : JsStr) :
    scanFirst f cs = (List.range (cs.length + 1)).findSome? fun i => f (cs.drop i) := by
  induction cs with
  | nil =>
    simp only [List.length_nil, Nat.zero_add, List.range_succ, List.range_zero,
      List.nil_append, List.findSome?_cons, List.findSome?_nil, List.drop_zero]
    cases hf : f [] <;> simp [scanFirst, hf]
  | cons c rest ih =>
    rw [List.length_cons, List.range_succ_eq_map, List.findSome?_cons]
    cases hf : f ((c :: rest).drop 0) with
    | some v => simp only [List.drop_zero] at hf; simp [scanFirst, hf]
    | none =>
      simp only [List.drop_zero] at hf
      simp only [scanFirst, hf, List.findSome?_map, ih]
      have hfun : ((fun i => f (List.drop i (c :: rest))) ∘ Nat.succ) =
          fun i => f (List.drop i rest) := by
        funext i
        simp [Function.comp_apply, List.drop_succ_cons]
      rw [hfun]

/-! ## Claim theorems -/

/-- C8: For every raw SVG text, DimensionHeuristic returns the width and
height given by the first numeric width="…" and height="…" attribute
occurrences in the text (an occurrence being a match of the source regexes,
with optional quotes); if either is absent or unparsable there, the
corresponding component defaults (300 for width, 150 for height).  The
code's suffix recursion equals the spec-side first-occurrence search. -/
theorem c8_dimension_heuristic (svgText : JsStr) :
    extractSvgDimensions svgText = dimensionHeuristicSpec svgText := by
  simp [extractSvgDimensions, dimensionHeuristicSpec, firstAttrNumIdx,
    scanFirst_eq_findSome]

/-- C9: For every invocation of renderSvgFullPage in which the engine
launches successfully, the close of the engine instance is the last event
of the call's trace — after the body's events on every exit path (success,
measurement failure, timeout, or capture failure) and before the result or
error is delivered. -/
theorem c9_engine_closed_on_every_path (env : RenderEnv) (svg : JsStr)
    (opts : RenderOptions) (h : env.launchOk = true) :
    (renderSvgFullPage env svg opts).2.getLast? = some Event.close ∧
      (renderSvgFullPage env svg opts).2.head? = some Event.launch := by
  simp only [renderSvgFullPage, h, if_true]
  constructor
  · exact List.getLast?_concat _
  · rw [List.cons_append]
    simp

/-- Witness for C9 at a concrete fully successful environment. -/
theorem c9_witness :
    (renderSvgFullPage envOk sampleSvg {}).2.getLast? = some Event.close ∧
      (renderSvgFullPage envOk sampleSvg {}).2.head? = some Event.launch :=
  c9_engine_closed_on_every_path envOk sampleSvg {} rfl

/-- C4 counterexample: a jpeg render with quality 0 — a value of the claimed
[0,1] domain — is encoded with screenshot quality 100, not with
round(0 * 100) = 0, because `options.quality || 1` treats the falsy 0 as an
absent value. -/
theorem c4_counterexample_quality_zero :
    (mkScreenshotOptions jpegChars (some 0)).quality = some 100 ∧
      round ((0 : ℚ) * 100) = 0 := by
  constructor
  · simp only [mkScreenshotOptions, jsOrNum, if_pos rfl]
    norm_num [round_eq]
  · norm_num

/-- C4 amended: the encoding is a pure mapping in which png and webp ignore
quality entirely (same options whatever the quality, and no quality field),
and jpeg maps every quality in the half-open interval (0,1] to
round(quality * 100); a quality of exactly 0 is falsy and is replaced by
the default 1, yielding 100. -/
theorem c4_amended_encoding :
    (∀ q q' : Option ℚ,
        mkScreenshotOptions pngChars q = mkScreenshotOptions pngChars q' ∧
          mkScreenshotOptions webpChars q = mkScreenshotOptions webpChars q' ∧
          (mkScreenshotOptions pngChars q).quality = none ∧
          (mkScreenshotOptions webpChars q).quality = none) ∧
      (∀ q : ℚ, 0 < q → q ≤ 1 →
        (mkScreenshotOptions jpegChars (some q)).quality = some (round (q * 100))) ∧
      (mkScreenshotOptions jpegChars (some 0)).quality = some 100 := by
  refine ⟨fun q q' => ?_, fun q hq _hq1 => ?_, ?_⟩
  · have hpng : ¬(pngChars = jpegChars) := by decide
    have hwebp : ¬(webpChars = jpegChars) := by decide
    simp [mkScreenshotOptions, hpng, hwebp]
  · have hne : ¬(q = 0) := ne_of_gt hq
    simp [mkScreenshotOptions, jsOrNum, hne]
  · simp only [mkScreenshotOptions, jsOrNum, if_pos rfl]
    norm_num [round_eq]

/-- Witness for C4 amended at the concrete jpeg quality 1/2. -/
theorem c4_amended_witness :
    (mkScreenshotOptions jpegChars (some (1 / 2))).quality = some 50 := by
  have h := c4_amended_encoding.2.1 (1 / 2) (by norm_num) (by norm_num)
  rw [h]
  norm_num [round_eq]

/-- C7 counterexample: a data URI whose payload itself contains a comma — a
legitimate instance of the envelope form — is truncated at the payload's
first comma by split(',')[1], so the raw markup is not recovered.
decodeURIComponent is the identity on this percent-free payload, which
identityDecode models. -/
theorem c7_counterexample_comma_payload :
    svgDataUriToString identityDecode
        "data:image/svg+xml;utf8,<svg a=\"1,2\"/>".toList =
      "<svg a=\"1".toList ∧
      "<svg a=\"1".toList ≠ "<svg a=\"1,2\"/>".toList := by
  constructor
  · rfl
  · decide

/-- C7 amended: for an envelope data:image/svg+xml[;encoding],payload whose
encoding part and payload contain no comma, the stripping recovers the
decoded payload (URL-decoding when the decode succeeds, the payload as-is
when it fails — `decode` abstracts decodeURIComponent with its try/catch);
a payload containing a comma is truncated at it.  Any input not starting
with the data:image/svg+xml scheme is returned unchanged. -/
theorem c7_amended_envelope_stripping :
    (∀ (decode : JsStr → Option JsStr) (encoding payload : JsStr),
        ',' ∉ encoding → ',' ∉ payload →
        svgDataUriToString decode (mkSvgDataUri (some encoding) payload) =
          (decode payload).getD payload) ∧
      (∀ (decode : JsStr → Option JsStr) (payload : JsStr), ',' ∉ payload →
        svgDataUriToString decode (mkSvgDataUri none payload) =
          (decode payload).getD payload) ∧
      ∀ (decode : JsStr → Option JsStr) (s : JsStr),
        leadsWith svgSchemeChars s = false → svgDataUriToString decode s = s := by
  refine ⟨fun decode e p he hp => ?_, fun decode p hp => ?_, fun decode s hs => ?_⟩
  · have huri : mkSvgDataUri (some e) p = (svgSchemeChars ++ ';' :: e) ++ ',' :: p := by
      simp [mkSvgDataUri, List.append_assoc]
    have hlead : leadsWith svgSchemeChars (mkSvgDataUri (some e) p) = true := by
      rw [huri, List.append_assoc]
      exact leadsWith_append _ _
    have hnc : ',' ∉ svgSchemeChars ++ ';' :: e := by
      intro hm
      rcases List.mem_append.mp hm with h1 | h2
      · revert h1
        decide
      · rcases List.mem_cons.mp h2 with h3 | h4
        · exact absurd h3 (by decide)
        · exact he h4
    rw [svgDataUriToString, if_pos hlead, huri,
      splitOnChar_append_sep _ _ _ hnc, splitOnChar_no_sep _ _ hp]
    cases hd : decode p <;> simp [hd]
  · have huri : mkSvgDataUri none p = svgSchemeChars ++ ',' :: p := by
      simp [mkSvgDataUri]
    have hlead : leadsWith svgSchemeChars (mkSvgDataUri none p) = true := by
      rw [huri]
      exact leadsWith_append _ _
    have hnc : ',' ∉ svgSchemeChars := by decide
    rw [svgDataUriToString, if_pos hlead, huri,
      splitOnChar_append_sep _ _ _ hnc, splitOnChar_no_sep _ _ hp]
    cases hd : decode p <;> simp [hd]
  · rw [svgDataUriToString, if_neg (by simp [hs])]

/-- Witness for C7 amended: a comma-free payload with an encoding part round
trips, and a non-scheme string is returned unchanged. -/
theorem c7_amended_witness :
    svgDataUriToString identityDecode
        (mkSvgDataUri (some "utf8".toList) "<svg/>".toList) = "<svg/>".toList ∧
      svgDataUriToString identityDecode "hello".toList = "hello".toList := by
  constructor
  · have h := c7_amended_envelope_stripping.1 identityDecode "utf8".toList
      "<svg/>".toList (by decide) (by decide)
    simpa [identityDecode] using h
  · exact c7_amended_envelope_stripping.2.2 identityDecode "hello".toList (by decide)

/-- Every rejection of the validation phase carries no `type` field: both
400 branches of the handler construct the JSON body from `error` alone. -/
theorem validateRender_error_no_type (req : HttpRequest) (b : ErrorBody)
    (h : validateRender req = Except.error b) : b.type = none := by
  have hcases : b = { error := svgRequiredMsg, type := none } ∨
      b = { error := outputTypeMsg, type := none } := by
    simp only [validateRender] at h
    split at h
    · exact Or.inl (Except.error.inj h).symm
    · split at h
      · exact Or.inl (Except.error.inj h).symm
      · split at h
        · exact absurd h (by simp)
        · exact Or.inr (Except.error.inj h).symm
  rcases hcases with rfl | rfl <;> rfl

/-- C10: the handler lowercases a supplied outputType before validating it,
so a mixed-case value whose lowercase form is one of png, jpeg, webp is
accepted, and the render proceeds with the lowercase format. -/
theorem c10_lowercase_output_type (req : HttpRequest) (s svg : JsStr)
    (hs : req.bodyOutputType = some s)
    (hl : jsToLower s ∈ validOutputTypes)
    (hsvg : effectiveSvg req = some svg) (hne : ¬(svg = [])) :
    ∃ args : RenderArgs, validateRender req = Except.ok args ∧
      args.outputType = jsToLower s ∧ args.svg = svg := by
  have hs0 : ¬(s = []) := by
    rintro rfl
    revert hl
    decide
  simp only [validateRender, hs, hsvg, if_neg hs0, if_neg hne, if_pos hl]
  exact ⟨_, rfl, rfl, rfl⟩

/-- Witness for C10 at the concrete mixed-case request PNG. -/
theorem c10_witness :
    ∃ args : RenderArgs, validateRender reqPNG = Except.ok args ∧
      args.outputType = jsToLower "PNG".toList ∧ args.svg = sampleSvg :=
  c10_lowercase_output_type reqPNG "PNG".toList sampleSvg rfl (by decide) rfl
    (by decide)

/-- C3 counterexample: the raw outputType value PNG lies outside the literal
set png, jpeg, webp, yet the request is not rejected — it is validated
(after lowercasing) and fully rendered with HTTP status 200, and
renderSvgFullPage is invoked. -/
theorem c3_counterexample_mixed_case :
    "PNG".toList ∉ validOutputTypes ∧
      (handleRender envOk reqPNG).statusOf = 200 := by
  constructor
  · decide
  · have hv : validateRender reqPNG = Except.ok
        { svg := sampleSvg, outputType := pngChars, quality := 1,
          deviceScaleFactor := 2, timeout := 30000 } := by
      simp [validateRender, reqPNG, effectiveSvg, jsToLower, validOutputTypes,
        pngChars, jpegChars, webpChars, sampleSvg]
    have hr := renderSvgFullPage_success envOk sampleSvg
      { outputType := some pngChars, outputPath := none, quality := some 1,
        deviceScaleFactor := some 2, timeout := some 30000 }
      (Elem.node svgTag []) rfl rfl (by simp [envOk, qsList]) rfl
    simp only [handleRender, hv, hr]
    rfl

/-- C3 amended: for every request supplying a nonempty outputType whose
lowercase form is outside png, jpeg, webp, validation rejects it with the
400 JSON error body, and the response is that rejection for every engine
environment — renderSvgFullPage is never consulted. -/
theorem c3_amended_invalid_output_type (req : HttpRequest) (s : JsStr)
    (hs : req.bodyOutputType = some s) (hne : ¬(s = []))
    (hbad : jsToLower s ∉ validOutputTypes) :
    ∃ b : ErrorBody, validateRender req = Except.error b ∧
      ∀ env : RenderEnv, handleRender env req = HttpResponse.json 400 b := by
  have hb : ∃ b, validateRender req = Except.error b := by
    simp only [validateRender, hs, if_neg hne, if_neg hbad]
    split
    · exact ⟨_, rfl⟩
    · split
      · exact ⟨_, rfl⟩
      · exact ⟨_, rfl⟩
  obtain ⟨b, hvb⟩ := hb
  exact ⟨b, hvb, fun env => by simp only [handleRender, hvb]⟩

/-- Witness for C3 amended at the concrete unsupported outputType gif. -/
theorem c3_amended_witness :
    ∃ b : ErrorBody, validateRender reqGif = Except.error b ∧
      ∀ env : RenderEnv, handleRender env reqGif = HttpResponse.json 400 b :=
  c3_amended_invalid_output_type reqGif "gif".toList rfl (by decide) (by decide)

/-- C5 counterexample: the validation failure for a request with no svg is
answered with status 400 and a JSON body carrying only an `error` field —
its `type` field is absent, so the failure response does not have the
claimed shape with both error and type strings. -/
theorem c5_counterexample_no_type_field :
    handleRender envOk {} =
      HttpResponse.json 400 { error := svgRequiredMsg, type := none } := by
  simp [handleRender, validateRender, effectiveSvg]

/-- C5 amended: every JSON failure response of POST /render is either a
validation failure — status 400 with an error-only body, no type field — or
a rendering failure — status 500 with both the error message and the error
kind tag present. -/
theorem c5_amended_failure_shape (env : RenderEnv) (req : HttpRequest)
    (s : ℕ) (b : ErrorBody)
    (h : handleRender env req = HttpResponse.json s b) :
    (s = 400 ∧ b.type = none) ∨ (s = 500 ∧ b.type.isSome = true) := by
  unfold handleRender at h
  split at h
  · rename_i b' hv
    injection h with h1 h2
    left
    exact ⟨h1.symm, h2 ▸ validateRender_error_no_type req b' hv⟩
  · rename_i args hv
    split at h
    · rename_i e he
      injection h with h1 h2
      right
      refine ⟨h1.symm, ?_⟩
      rw [← h2]
      rfl
    · exact absurd h (by simp)

/-- Witness for C5 amended at the concrete missing-svg request. -/
theorem c5_amended_witness :
    ((400 : ℕ) = 400 ∧ (ErrorBody.mk svgRequiredMsg none).type = none) ∨
      ((400 : ℕ) = 500 ∧ (ErrorBody.mk svgRequiredMsg none).type.isSome = true) :=
  c5_amended_failure_shape envOk {} 400 { error := svgRequiredMsg, type := none }
    (by simp [handleRender, validateRender, effectiveSvg])

/-- C1: For every successful render — assuming the engine's capture step
yields a nonempty encoded image, as any valid encoding is — the result's
width and height equal the MeasuredExtent (the ceiling of the measured
bounding box, clamped to at least 1 per dimension), both are at least 1,
the buffer is nonempty, and the dimensions are what measurement produced
regardless of the markup text the DimensionHeuristic guessed from. -/
theorem c1_render_result (env : RenderEnv) (svg : JsStr) (opts : RenderOptions)
    (r : RenderResult) (ev : List Event)
    (h : renderSvgFullPage env svg opts = (Except.ok r, ev))
    (hshot : ∀ o, 0 < (env.shot o).length) :
    some (r.width, r.height) = measuredExtent env ∧
      1 ≤ r.width ∧ 1 ≤ r.height ∧ 0 < r.buffer.length ∧
      ∀ svg2 r2 ev2, renderSvgFullPage env svg2 opts = (Except.ok r2, ev2) →
        r2.width = r.width ∧ r2.height = r.height := by
  obtain ⟨hb, hl, hs, el, hel, hr, hev⟩ :=
    renderSvgFullPage_ok_inversion env svg opts r ev h
  subst hr
  refine ⟨?_, ?_, ?_, ?_, ?_⟩
  · simp [measuredExtent, hel, successResult]
  · calc (1 : ℤ) = ⌈(1 : ℚ)⌉ := by norm_num
    _ ≤ ⌈max (env.bbox el).1 1⌉ := Int.ceil_le_ceil (le_max_right _ _)
  · calc (1 : ℤ) = ⌈(1 : ℚ)⌉ := by norm_num
    _ ≤ ⌈max (env.bbox el).2 1⌉ := Int.ceil_le_ceil (le_max_right _ _)
  · exact hshot _
  · intro svg2 r2 ev2 h2
    obtain ⟨_, _, _, el2, hel2, hr2, _⟩ :=
      renderSvgFullPage_ok_inversion env svg2 opts r2 ev2 h2
    rw [hel2] at hel
    obtain rfl := Option.some.inj hel
    subst hr2
    exact ⟨rfl, rfl⟩

/-- Witness for C1 at the concrete fully successful environment. -/
theorem c1_witness :
    some ((successResult envOk {} (Elem.node svgTag [])).width,
        (successResult envOk {} (Elem.node svgTag [])).height) = measuredExtent envOk ∧
      1 ≤ (successResult envOk {} (Elem.node svgTag [])).width ∧
      1 ≤ (successResult envOk {} (Elem.node svgTag [])).height ∧
      0 < (successResult envOk {} (Elem.node svgTag [])).buffer.length ∧
      ∀ svg2 r2 ev2, renderSvgFullPage envOk svg2 {} = (Except.ok r2, ev2) →
        r2.width = (successResult envOk {} (Elem.node svgTag [])).width ∧
          r2.height = (successResult envOk {} (Elem.node svgTag [])).height :=
  c1_render_result envOk sampleSvg {} (successResult envOk {} (Elem.node svgTag []))
    (Event.launch :: successEvents envOk {} ++ [Event.close])
    (renderSvgFullPage_success envOk sampleSvg {} (Elem.node svgTag []) rfl rfl
      (by simp [envOk, qsList]) rfl)
    (fun _ => by simp [envOk])

/-- C2 counterexample: markup whose document root is a div wrapping an svg —
a non-SVG document root — does not fail with a DimensionError: the measure
step's querySelector finds the nested svg element and the render succeeds. -/
theorem c2_counterexample_nested_svg :
    domRootTag envC2div.dom = some "div".toList ∧
      "div".toList ≠ svgTag ∧
      (renderSvgFullPage envC2div "<div><svg></svg></div>".toList {}).1.isOk = true := by
  refine ⟨rfl, by decide, ?_⟩
  have h := renderSvgFullPage_success envC2div "<div><svg></svg></div>".toList {}
    (Elem.node svgTag []) rfl rfl (by simp [envC2div, envOk, qsList, svgTag]) rfl
  rw [h]
  rfl

/-- C2 amended: once the engine has launched and the content loaded, the
render fails with a DimensionError exactly when the loaded document contains
no svg element anywhere; markup with a non-svg root whose subtree contains
an svg is still measured and rendered. -/
theorem c2_amended_dimension_error_iff (env : RenderEnv) (svg : JsStr)
    (opts : RenderOptions) (hb : env.launchOk = true) (hl : env.loadOk = true) :
    (renderSvgFullPage env svg opts).1 = Except.error RenderErr.dimension ↔
      qsList svgTag env.dom = none := by
  cases hel : qsList svgTag env.dom with
  | none => simp [renderSvgFullPage_dimension env svg opts hb hl hel]
  | some el =>
    by_cases hs : env.shotOk
    · have h := renderSvgFullPage_success env svg opts el hb hl hel hs
      simp [h]
    · have h := renderSvgFullPage_capture env svg opts el hb hl hel
        (Bool.not_eq_true _ ▸ hs)
      simp [h]

/-- Witness for C2 amended at a concrete svg-free document. -/
theorem c2_amended_witness :
    (renderSvgFullPage envNoSvg sampleSvg {}).1 = Except.error RenderErr.dimension ↔
      qsList svgTag envNoSvg.dom = none :=
  c2_amended_dimension_error_iff envNoSvg sampleSvg {} rfl rfl

/-- C6 counterexample: with no outputPath supplied — the default — a
successful render still performs file writes: the debug HTML dump and the
debug image dump both occur in the call's trace. -/
theorem c6_counterexample_debug_writes :
    ({} : RenderOptions).outputPath = none ∧
      Event.writeTempHtml ∈ (renderSvgFullPage envOk sampleSvg {}).2 ∧
      Event.writeTempImage ∈ (renderSvgFullPage envOk sampleSvg {}).2 := by
  have h := renderSvgFullPage_success envOk sampleSvg {} (Elem.node svgTag []) rfl rfl
    (by simp [envOk, qsList]) rfl
  refine ⟨rfl, ?_, ?_⟩ <;>
    · rw [h]
      simp [successEvents, envOk]

/-- C6 amended: a successful renderSvgFullPage call writes the opt-in
outputPath file exactly when outputPath was supplied (and reports it in the
result), but it additionally always writes the two debug artifacts — the
HTML dump and the image dump — to the temp directory on every call. -/
theorem c6_amended_file_effects (env : RenderEnv) (svg : JsStr)
    (opts : RenderOptions) (r : RenderResult) (ev : List Event)
    (h : renderSvgFullPage env svg opts = (Except.ok r, ev)) :
    (Event.writeOutput ∈ ev ↔ opts.outputPath.isSome = true) ∧
      Event.writeTempHtml ∈ ev ∧ Event.writeTempImage ∈ ev ∧
      r.path = opts.outputPath := by
  obtain ⟨hb, hl, hs, el, hel, hr, hev⟩ :=
    renderSvgFullPage_ok_inversion env svg opts r ev h
  subst hr
  subst hev
  cases htd : env.tempDirExists <;> cases ho : opts.outputPath <;>
    simp [successEvents, successResult, htd, ho]

/-- Witness for C6 amended at a concrete render with an outputPath. -/
theorem c6_amended_witness :
    (Event.writeOutput ∈ (Event.launch ::
        successEvents envOk { outputPath := some "out.png".toList } ++ [Event.close]) ↔
      (some "out.png".toList).isSome = true) ∧
      Event.writeTempHtml ∈ (Event.launch ::
        successEvents envOk { outputPath := some "out.png".toList } ++ [Event.close]) ∧
      Event.writeTempImage ∈ (Event.launch ::
        successEvents envOk { outputPath := some "out.png".toList } ++ [Event.close]) ∧
      (successResult envOk { outputPath := some "out.png".toList }
          (Elem.node svgTag [])).path = some "out.png".toList :=
  c6_amended_file_effects envOk sampleSvg { outputPath := some "out.png".toList }
    (successResult envOk { outputPath := some "out.png".toList } (Elem.node svgTag []))
    (Event.launch :: successEvents envOk { outputPath := some "out.png".toList } ++
      [Event.close])
    (renderSvgFullPage_success envOk sampleSvg
      { outputPath := some "out.png".toList } (Elem.node svgTag []) rfl rfl
      (by simp [envOk, qsList]) rfl)

end DomToImage
